import Mathlib

/-!
Verification of the khkt-rag query-routing and quiz-lifecycle engine.

Python strings manipulated by the tools are modelled as lists of characters
(`Str`), so every operation of the source (splitting, stripping, case
mapping, regex scanning) is an executable structural function.  Rational
numbers stand for the Python floats that the code compares and rounds.
-/

namespace KhktRag

/-- Python strings are modelled as lists of Unicode characters. -/
abbrev Str := List Char

/-- Characters treated as whitespace by Python's `str.strip`/`str.split`/`\s`. -/
def isWsChar (c : Char) : Bool :=
  c == ' ' || c == '\t' || c == '\n' || c == '\r' || c == '\x0b' || c == '\x0c'

/-- ASCII decimal digit. -/
def isDigitChar (c : Char) : Bool :=
  '0' ≤ c && c ≤ '9'

/-- Simple lower-case mapping (Python `str.lower`) for the code points that occur
in the source's keyword tables and patterns: ASCII letters, the Latin-1
uppercase range, the paired Latin Extended-A/B letters (including Ơ and Ư) and
the Vietnamese additions U+1EA0–U+1EFF.  All other characters are unchanged. -/
def pyLowerChar (c : Char) : Char :=
  if 65 ≤ c.toNat && c.toNat ≤ 90 then Char.ofNat (c.toNat + 32)
  else if 0xC0 ≤ c.toNat && c.toNat ≤ 0xDE && c.toNat != 0xD7 then Char.ofNat (c.toNat + 32)
  else if 0x100 ≤ c.toNat && c.toNat ≤ 0x177 && c.toNat % 2 == 0 then Char.ofNat (c.toNat + 1)
  else if c.toNat == 0x1A0 || c.toNat == 0x1AF then Char.ofNat (c.toNat + 1)
  else if 0x1EA0 ≤ c.toNat && c.toNat ≤ 0x1EFE && c.toNat % 2 == 0 then Char.ofNat (c.toNat + 1)
  else c

/-- Simple upper-case mapping (Python `str.upper`) for the same ranges. -/
def pyUpperChar (c : Char) : Char :=
  if 97 ≤ c.toNat && c.toNat ≤ 122 then Char.ofNat (c.toNat - 32)
  else if 0xE0 ≤ c.toNat && c.toNat ≤ 0xFE && c.toNat != 0xF7 then Char.ofNat (c.toNat - 32)
  else if 0x101 ≤ c.toNat && c.toNat ≤ 0x178 && c.toNat % 2 == 1 then Char.ofNat (c.toNat - 1)
  else if c.toNat == 0x1A1 || c.toNat == 0x1B0 then Char.ofNat (c.toNat - 1)
  else if 0x1EA1 ≤ c.toNat && c.toNat ≤ 0x1EFF && c.toNat % 2 == 1 then Char.ofNat (c.toNat - 1)
  else c

/-- Python `str.lower`. -/
def pyLower (s : Str) : Str := s.map pyLowerChar

/-- Python `str.upper`. -/
def pyUpper (s : Str) : Str := s.map pyUpperChar

/-- Python `str.strip()`: drop leading and trailing whitespace. -/
def pyStrip (s : Str) : Str :=
  ((s.dropWhile isWsChar).reverse.dropWhile isWsChar).reverse

/-- Python `str.split(sep)` for a one-character separator: keeps empty pieces. -/
def splitOnChar (sep : Char) (s : Str) : List Str :=
  s.foldr
    (fun c acc =>
      match acc with
      | [] => [[c]]
      | cur :: rest => if c == sep then [] :: cur :: rest else (c :: cur) :: rest)
    [[]]

/-- Python `str.split(sep, 1)`: the pieces before and after the first separator
(assuming the separator occurs; otherwise the whole string and `[]`). -/
def splitFirstAt (sep : Char) : Str → Str × Str
  | [] => ([], [])
  | c :: rest =>
    if c == sep then ([], rest)
    else
      let r := splitFirstAt sep rest
      (c :: r.1, r.2)

/-- Does `s` begin with `pat`? -/
def startsWith : Str → Str → Bool
  | [], _ => true
  | _ :: _, [] => false
  | p :: ps, c :: cs => p == c && startsWith ps cs

/-- Python's substring test `pat in s`. -/
def hasSub (pat : Str) : Str → Bool
  | [] => startsWith pat []
  | c :: rest => startsWith pat (c :: rest) || hasSub pat rest

/-- Python `str.replace(" ", "")` as used on extracted answer keys. -/
def removeSpaces (s : Str) : Str := s.filter (fun c => c != ' ')

/-- Python `",".join(pieces)`. -/
def joinComma : List Str → Str
  | [] => []
  | [p] => p
  | p :: q :: rest => p ++ ',' :: joinComma (q :: rest)

/-!
### `SubmissionManager.grade_submission` (src/src/tools/submission_manager.py:80–117)
-/

/-- Insert into a Python dict modelled as an insertion-ordered association list:
an existing key keeps its position and gets the new value, a fresh key is
appended. -/
def dictInsert (d : List (Str × Str)) (k v : Str) : List (Str × Str) :=
  if d.any (fun e => e.1 == k) then
    d.map (fun e => if e.1 == k then (k, v) else e)
  else d ++ [(k, v)]

/-- Python `dict.get` (the dict built by `dictInsert` has unique keys). -/
def dictGet (d : List (Str × Str)) (k : Str) : Option Str :=
  (d.find? (fun e => e.1 == k)).map (·.2)

/-- The inner `parse` of `grade_submission`: split on commas, strip each piece,
keep the non-empty ones, and for every piece containing a dash store
`strip(num) ↦ strip(choice).upper()` in a dict (later entries overwrite). -/
def parseAnswerMap (ans : Str) : List (Str × Str) :=
  let pieces := ((splitOnChar ',' ans).map pyStrip).filter (fun p => !p.isEmpty)
  pieces.foldl
    (fun d p =>
      if p.any (fun c => c == '-') then
        let nc := splitFirstAt '-' p
        dictInsert d (pyStrip nc.1) (pyUpper (pyStrip nc.2))
      else d)
    []

/-- Number of answer-key entries whose question number is answered with the
same (upper-cased) letter by the student. -/
def correctCount (studentAnswers answerKey : Str) : Nat :=
  (parseAnswerMap answerKey).countP
    (fun e => dictGet (parseAnswerMap studentAnswers) e.1 == some e.2)

/-- Banker's rounding of a rational to an integer (Python `round`). -/
def roundHalfEven (x : ℚ) : ℤ :=
  if x - ⌊x⌋ < 1 / 2 then ⌊x⌋
  else if 1 / 2 < x - ⌊x⌋ then ⌊x⌋ + 1
  else if Even ⌊x⌋ then ⌊x⌋ else ⌊x⌋ + 1

/-- Python `round(x, 2)`. -/
def round2 (x : ℚ) : ℚ := (roundHalfEven (x * 100) : ℚ) / 100

/-- `SubmissionManager.grade_submission`: score out of 10 with two-decimal
rounding; an answer key parsing to no entries scores 0. -/
def grade_submission (studentAnswers answerKey : Str) : ℚ :=
  let keyMap := parseAnswerMap answerKey
  if keyMap.isEmpty then 0
  else round2 ((correctCount studentAnswers answerKey : ℚ) / (keyMap.length : ℚ) * 10)

theorem roundHalfEven_le (x : ℚ) : roundHalfEven x ≤ ⌊x⌋ + 1 := by
  unfold roundHalfEven
  split_ifs <;> omega

theorem le_roundHalfEven (x : ℚ) : ⌊x⌋ ≤ roundHalfEven x := by
  unfold roundHalfEven
  split_ifs <;> omega

theorem roundHalfEven_mono {x y : ℚ} (h : x ≤ y) :
    roundHalfEven x ≤ roundHalfEven y := by
  rcases lt_or_eq_of_le (Int.floor_le_floor h) with hf | hf
  · calc roundHalfEven x ≤ ⌊x⌋ + 1 := roundHalfEven_le x
    _ ≤ ⌊y⌋ := by omega
    _ ≤ roundHalfEven y := le_roundHalfEven y
  · unfold roundHalfEven
    rw [← hf]
    split_ifs with h1 h2 h3 h4 h5 h6 h7 <;> try omega
    all_goals linarith

theorem round2_mono {x y : ℚ} (h : x ≤ y) : round2 x ≤ round2 y := by
  unfold round2
  have := roundHalfEven_mono (mul_le_mul_of_nonneg_right h (by norm_num : (0:ℚ) ≤ 100))
  have hc : (roundHalfEven (x * 100) : ℚ) ≤ (roundHalfEven (y * 100) : ℚ) := by
    exact_mod_cast this
  linarith

theorem roundHalfEven_intCast (n : ℤ) : roundHalfEven (n : ℚ) = n := by
  unfold roundHalfEven
  simp

theorem round2_ten : round2 10 = 10 := by
  have h : roundHalfEven ((10 : ℚ) * 100) = 1000 := by
    have h0 := roundHalfEven_intCast 1000
    norm_num at h0 ⊢
    exact h0
  unfold round2
  rw [h]
  norm_num

theorem round2_zero : round2 0 = 0 := by
  have h : roundHalfEven ((0 : ℚ) * 100) = 0 := by
    have h0 := roundHalfEven_intCast 0
    norm_num at h0 ⊢
    exact h0
  unfold round2
  rw [h]
  norm_num

theorem grade_submission_of_ne_nil (student key : Str)
    (h : parseAnswerMap key ≠ []) :
    grade_submission student key =
      round2 ((correctCount student key : ℚ) / ((parseAnswerMap key).length : ℚ) * 10) := by
  unfold grade_submission
  simp [List.isEmpty_iff, h]

/-- C1: `grade_submission` parses both strings into (question number ↦ letter)
dicts and returns `round(10 · correct/total, 2)` over the key entries; it
returns 0 when the key parses to no entries, 10 when every key entry is
matched (case-insensitively) by the student answers, 0 when none is, and is
monotone in the number of matching entries. -/
theorem C1_grade_submission (student key : Str) :
    (parseAnswerMap key ≠ [] →
      grade_submission student key =
        round2 ((correctCount student key : ℚ) / ((parseAnswerMap key).length : ℚ) * 10)) ∧
    (parseAnswerMap key = [] → grade_submission student key = 0) ∧
    (parseAnswerMap key ≠ [] →
      (∀ e ∈ parseAnswerMap key, dictGet (parseAnswerMap student) e.1 = some e.2) →
      grade_submission student key = 10) ∧
    ((∀ e ∈ parseAnswerMap key, dictGet (parseAnswerMap student) e.1 ≠ some e.2) →
      grade_submission student key = 0) ∧
    (∀ student2, correctCount student key ≤ correctCount student2 key →
      grade_submission student key ≤ grade_submission student2 key) := by
  refine ⟨grade_submission_of_ne_nil student key, ?_, ?_, ?_, ?_⟩
  · intro h
    unfold grade_submission
    simp [List.isEmpty_iff, h]
  · intro h hall
    have hL : (0 : ℚ) < ((parseAnswerMap key).length : ℚ) := by
      have := List.length_pos.mpr h
      exact_mod_cast this
    have hc : correctCount student key = (parseAnswerMap key).length := by
      unfold correctCount
      refine List.countP_eq_length.mpr ?_
      intro e he
      simpa using hall e he
    rw [grade_submission_of_ne_nil student key h, hc]
    rw [div_self (ne_of_gt hL), one_mul, round2_ten]
  · intro hnone
    by_cases h : parseAnswerMap key = []
    · unfold grade_submission
      simp [List.isEmpty_iff, h]
    · have hc : correctCount student key = 0 := by
        unfold correctCount
        apply List.countP_eq_zero.mpr
        intro e he
        simpa using hnone e he
      rw [grade_submission_of_ne_nil student key h, hc]
      norm_num [round2_zero]
  · intro student2 hmono
    by_cases h : parseAnswerMap key = []
    · unfold grade_submission
      simp [List.isEmpty_iff, h]
    · rw [grade_submission_of_ne_nil student key h,
        grade_submission_of_ne_nil student2 key h]
      apply round2_mono
      have hL : (0 : ℚ) < ((parseAnswerMap key).length : ℚ) := by
        have := List.length_pos.mpr h
        exact_mod_cast this
      have hcc : (correctCount student key : ℚ) ≤ (correctCount student2 key : ℚ) := by
        exact_mod_cast hmono
      gcongr

/-!
### Submission duration (src/src/tools/submission_manager.py:149–183)
-/

/-- The duration computation of `SubmissionManager.submit_quiz`: given the
parsed creation time of the quiz (`none` when `created_at` is missing from the
row or unparseable) and the submission time, both in seconds, the recorded
duration in minutes is `max(0, int((delta.total_seconds() + 59) // 60))`. -/
def computeDuration (createdAt : Option ℚ) (now : ℚ) : ℤ :=
  match createdAt with
  | none => 0
  | some t => max 0 ⌊(now - t + 59) / 60⌋

theorem floor_add59_div60_eq_ceil (s : ℤ) :
    ⌊((s : ℚ) + 59) / 60⌋ = ⌈(s : ℚ) / 60⌉ := by
  have h1 : ((s : ℚ) + 59) / 60 = ((s + 59 : ℤ) : ℚ) / ((60 : ℕ) : ℚ) := by
    push_cast
    ring
  have h2 : ⌈(s : ℚ) / 60⌉ = -⌊((-s : ℤ) : ℚ) / ((60 : ℕ) : ℚ)⌋ := by
    rw [← Int.ceil_neg]
    congr 1
    push_cast
    ring
  rw [h1, h2, Rat.floor_intCast_div_natCast, Rat.floor_intCast_div_natCast]
  omega

/-!
### `QuizGuard` (src/src/tools/quiz_guard.py)
-/

/-- Generalisation of `splitOnChar` to a predicate. -/
def splitOnPred (p : Char → Bool) (s : Str) : List Str :=
  s.foldr
    (fun c acc =>
      match acc with
      | [] => [[c]]
      | cur :: rest => if p c then [] :: cur :: rest else (c :: cur) :: rest)
    [[]]

/-- Python `str.split()` with no argument: maximal runs of non-whitespace. -/
def pySplitWs (s : Str) : List Str :=
  (splitOnPred isWsChar s).filter (fun w => !w.isEmpty)

/-- The word set `set(text.lower().strip().split())`. -/
def wordSet (t : Str) : Finset Str := (pySplitWs (pyStrip (pyLower t))).toFinset

/-- `QuizGuard._calculate_text_similarity`: word-set Jaccard similarity of the
lower-cased, stripped texts; 0 when the union of word sets is empty. -/
def calculateTextSimilarity (text1 text2 : Str) : ℚ :=
  if (wordSet text1 ∪ wordSet text2).card = 0 then 0
  else ((wordSet text1 ∩ wordSet text2).card : ℚ) / ((wordSet text1 ∪ wordSet text2).card : ℚ)

/-- Consume a literal string (regex literal). -/
def lit : Str → Str → Option Str
  | [], s => some s
  | _ :: _, [] => none
  | p :: ps, c :: cs => if p == c then lit ps cs else none

/-- Consume one-or-more whitespace characters (regex `\s+`, greedy; the
patterns below always follow `\s+` with a non-whitespace class, so greedy
matching agrees with backtracking). -/
def wsPlus : Str → Option Str
  | [] => none
  | c :: rest => if isWsChar c then some (rest.dropWhile isWsChar) else none

/-- Regex `\s*` (greedy). -/
def wsStar (s : Str) : Str := s.dropWhile isWsChar

/-- Consume one-or-more digits (regex `\d+`, greedy). -/
def digitsPlus : Str → Option Str
  | [] => none
  | c :: rest => if isDigitChar c then some (rest.dropWhile isDigitChar) else none

/-- Upper-case option letter `[A-D]`. -/
def upLetterAD (c : Char) : Bool := 'A' ≤ c && c ≤ 'D'

/-- Letter class `[A-D]` under `re.IGNORECASE`. -/
def letterADci (c : Char) : Bool := upLetterAD c || ('a' ≤ c && c ≤ 'd')

/-- Pattern `câu\s+\d+` anchored at the current position. -/
def matchCauNum (l : Str) : Bool :=
  (lit ('c' :: 'â' :: 'u' :: []) l >>= wsPlus >>= digitsPlus).isSome

/-- Pattern `câu\s+số\s+\d+` anchored at the current position. -/
def matchCauSoNum (l : Str) : Bool :=
  (lit ('c' :: 'â' :: 'u' :: []) l >>= wsPlus >>= lit ('s' :: 'ố' :: []) >>=
    wsPlus >>= digitsPlus).isSome

/-- Pattern `đáp\s*án` anchored at the current position. -/
def matchDapAn (l : Str) : Bool :=
  ((lit ('đ' :: 'á' :: 'p' :: []) l).map wsStar >>= lit ('á' :: 'n' :: [])).isSome

/-- Pattern `chọn\s+[A-D]` anchored at the current position (the letter class
is upper-case although the query was lower-cased first, exactly as in the
source). -/
def matchChonAD (l : Str) : Bool :=
  match lit ('c' :: 'h' :: 'ọ' :: 'n' :: []) l >>= wsPlus with
  | some (c :: _) => upLetterAD c
  | _ => false

/-- Pattern `bài\s+(này|đó|kiểm\s*tra)` anchored at the current position. -/
def matchBai (l : Str) : Bool :=
  match lit ('b' :: 'à' :: 'i' :: []) l >>= wsPlus with
  | some r =>
    (lit ('n' :: 'à' :: 'y' :: []) r).isSome ||
    (lit ('đ' :: 'ó' :: []) r).isSome ||
    ((lit ('k' :: 'i' :: 'ể' :: 'm' :: []) r).map wsStar >>=
      lit ('t' :: 'r' :: 'a' :: [])).isSome
  | none => false

/-- Pattern `đề\s+(này|đó|thi)` anchored at the current position. -/
def matchDe (l : Str) : Bool :=
  match lit ('đ' :: 'ề' :: []) l >>= wsPlus with
  | some r =>
    (lit ('n' :: 'à' :: 'y' :: []) r).isSome ||
    (lit ('đ' :: 'ó' :: []) r).isSome ||
    (lit ('t' :: 'h' :: 'i' :: []) r).isSome
  | none => false

/-- Pattern `câu\s+hỏi\s+số` anchored at the current position. -/
def matchCauHoiSo (l : Str) : Bool :=
  (lit ('c' :: 'â' :: 'u' :: []) l >>= wsPlus >>= lit ('h' :: 'ỏ' :: 'i' :: []) >>=
    wsPlus >>= lit ('s' :: 'ố' :: [])).isSome

/-- `re.search`: try the anchored matcher at every position. -/
def searchAt (m : Str → Bool) : Str → Bool
  | [] => m []
  | c :: rest => m (c :: rest) || searchAt m rest

/-- `QuizGuard._has_explicit_cheating`: lower-case the query and try the seven
explicit patterns in order. -/
def hasExplicitCheating (query : Str) : Bool :=
  let q := pyLower query
  searchAt matchCauNum q || searchAt matchCauSoNum q || searchAt matchDapAn q ||
  searchAt matchChonAD q || searchAt matchBai q || searchAt matchDe q ||
  searchAt matchCauHoiSo q

/-- Lookahead `(?=\*\*[A-D]\.\*\*)` of the question-extraction regex. -/
def lookOptionMarker (s : Str) : Bool :=
  match s with
  | '*' :: '*' :: x :: '.' :: '*' :: '*' :: _ => upLetterAD x
  | _ => false

/-- Lazy capture `(.+?)` stopped by the option-marker lookahead or the end of
the text (`re.DOTALL`, so newlines are captured too).  Returns the capture and
the remainder. -/
def captureBody : Str → Str × Str
  | [] => ([], [])
  | c :: rest =>
    if lookOptionMarker rest then ([c], rest)
    else
      let r := captureBody rest
      (c :: r.1, r.2)

/-- Header `##\s+\*\*Câu\s+\d+\*\*:` of the question-extraction regex,
anchored at the current position; returns the remainder after the colon. -/
def matchQuestionHeader (l : Str) : Option Str :=
  lit ('#' :: '#' :: []) l >>= wsPlus >>=
    lit ('*' :: '*' :: 'C' :: 'â' :: 'u' :: []) >>= wsPlus >>= digitsPlus >>=
    lit ('*' :: '*' :: ':' :: [])

/-- Join pieces with a separator character. -/
def joinChar (sep : Char) : List Str → Str
  | [] => []
  | [p] => p
  | p :: q :: rest => p ++ sep :: joinChar sep (q :: rest)

/-- `' '.join(text.split())`: collapse all whitespace runs. -/
def normalizeWs (s : Str) : Str := joinChar ' ' (pySplitWs s)

/-- `re.findall` loop of `QuizGuard._extract_all_questions`: scan for question
headers, capture each body lazily, and continue after the capture
(non-overlapping matches).  Fuel is the length of the text. -/
def extractQuestionsGo : Nat → Str → List Str
  | 0, _ => []
  | _ + 1, [] => []
  | fuel + 1, c :: rest =>
    match matchQuestionHeader (c :: rest) with
    | some afterHeader =>
      match wsStar afterHeader with
      | [] => extractQuestionsGo fuel rest
      | b :: bs =>
        let cap := captureBody (b :: bs)
        normalizeWs cap.1 :: extractQuestionsGo fuel cap.2
    | none => extractQuestionsGo fuel rest

/-- `QuizGuard._extract_all_questions`. -/
def extractAllQuestions (content : Str) : List Str :=
  extractQuestionsGo content.length content

/-- The quiz fields consumed by the guard. -/
structure QuizInfo where
  id : String
  content : Str
  subject : Option String
  topic : Option String

/-- The guard's verdict (the free-text `reason` of the source is presentation
and is not modelled). -/
structure GuardResult where
  is_blocked : Bool
  confidence : ℚ
  method : String
  deriving DecidableEq

/-- Lookup in the guard's per-process cache, keyed by `f"{quiz['id']}:{query}"`
(modelled as the pair of id and query). -/
def cacheGet (cache : List ((String × Str) × GuardResult)) (k : String × Str) :
    Option GuardResult :=
  (cache.find? (fun e => e.1.1 == k.1 && e.1.2 == k.2)).map (·.2)

/-- `QuizGuard._llm_classify`: cached result if present; otherwise the LLM's
answer (its stripped, upper-cased text containing "YES" means blocked,
confidence 0.95, method "llm"); if the LLM call raises, blocked with
confidence 0.5 and method "error". -/
def llmClassify (query : Str) (quiz : QuizInfo)
    (cache : List ((String × Str) × GuardResult)) (llm : Except Unit Str) :
    GuardResult :=
  match cacheGet cache (quiz.id, query) with
  | some r => r
  | none =>
    match llm with
    | Except.ok ans =>
      let blocked := hasSub ('Y' :: 'E' :: 'S' :: []) (pyUpper (pyStrip ans))
      { is_blocked := blocked, confidence := 95 / 100, method := "llm" }
    | Except.error _ =>
      { is_blocked := true, confidence := 1 / 2, method := "error" }

/-- `QuizGuard.is_cheating`: three-layer cascade.  Layer 1 blocks on an
explicit pattern (confidence 1, method "explicit"); layer 2 blocks on the
first extracted question whose Jaccard similarity with the query exceeds 0.6
(confidence 0.98, method "similarity"); layer 3 is `llmClassify`. -/
def isCheating (query : Str) (quiz : QuizInfo)
    (cache : List ((String × Str) × GuardResult)) (llm : Except Unit Str) :
    GuardResult :=
  if hasExplicitCheating query then
    { is_blocked := true, confidence := 1, method := "explicit" }
  else
    match (extractAllQuestions quiz.content).find?
        (fun q => decide ((3 : ℚ) / 5 < calculateTextSimilarity query q)) with
    | some _ =>
      { is_blocked := true, confidence := 98 / 100, method := "similarity" }
    | none => llmClassify query quiz cache llm

/-!
### Claim theorems for the duration and the guard
-/

/-- C9 counterexample: with an elapsed time of 60.5 seconds the code records
1 minute while the claimed ceiling formula gives 2. -/
theorem C9_duration_counterexample :
    computeDuration (some 0) (121 / 2) = 1 ∧
    max 0 ⌈((121 : ℚ) / 2 - 0) / 60⌉ = 2 := by
  constructor
  · show max 0 ⌊((121 : ℚ) / 2 - 0 + 59) / 60⌋ = 1
    have h : (((121 : ℚ) / 2 - 0 + 59) / 60) = 239 / 120 := by norm_num
    rw [h]
    have hf : ⌊(239 : ℚ) / 120⌋ = 1 := by
      rw [Int.floor_eq_iff]
      norm_num
    rw [hf]
    decide
  · have h : (((121 : ℚ) / 2 - 0) / 60) = 121 / 120 := by norm_num
    rw [h]
    have hc : ⌈(121 : ℚ) / 120⌉ = 2 := by
      rw [Int.ceil_eq_iff]
      norm_num
    rw [hc]
    decide

/-- C9 (amended): the recorded duration is `max 0 ⌊(elapsed + 59) / 60⌋`
minutes, which coincides with the claimed `max 0 ⌈elapsed / 60⌉` whenever the
elapsed time is a whole number of seconds (so 17 elapsed seconds give
1 minute); a missing or unparseable creation timestamp records 0. -/
theorem C9_duration_amended (createdAt : Option ℚ) (now : ℚ) :
    (createdAt = none → computeDuration createdAt now = 0) ∧
    (∀ t : ℚ, createdAt = some t →
      computeDuration createdAt now = max 0 ⌊(now - t + 59) / 60⌋) ∧
    (∀ t : ℚ, createdAt = some t → ∀ s : ℤ, now - t = (s : ℚ) →
      computeDuration createdAt now = max 0 ⌈(now - t) / 60⌉) := by
  refine ⟨?_, ?_, ?_⟩
  · intro h
    rw [h]
    rfl
  · intro t h
    rw [h]
    rfl
  · intro t h s hs
    rw [h]
    show max 0 ⌊(now - t + 59) / 60⌋ = max 0 ⌈(now - t) / 60⌉
    rw [hs, floor_add59_div60_eq_ceil]

/-- C9 witness: 17 elapsed seconds record 1 minute, matching the ceiling. -/
theorem C9_duration_amended_witness :
    computeDuration (some 0) 17 = max 0 ⌈((17 : ℚ) - 0) / 60⌉ ∧
    computeDuration (some 0) 17 = 1 := by
  have h := (C9_duration_amended (some 0) 17).2.2 0 rfl 17 (by norm_num)
  refine ⟨h, ?_⟩
  rw [h]
  have hc : ⌈((17 : ℚ) - 0) / 60⌉ = 1 := by
    rw [Int.ceil_eq_iff]
    norm_num
  rw [hc]
  decide

/-- C10: the guard's similarity is total and well-behaved: always in `[0, 1]`,
symmetric, 0 when the union of word sets is empty (no division by zero), and a
query with no words can never exceed the 0.6 similarity threshold. -/
theorem C10_similarity_safe (a b : Str) :
    0 ≤ calculateTextSimilarity a b ∧
    calculateTextSimilarity a b ≤ 1 ∧
    calculateTextSimilarity a b = calculateTextSimilarity b a ∧
    (wordSet a ∪ wordSet b = ∅ → calculateTextSimilarity a b = 0) ∧
    (pySplitWs (pyStrip (pyLower a)) = [] →
      ¬ ((3 : ℚ) / 5 < calculateTextSimilarity a b)) := by
  refine ⟨?_, ?_, ?_, ?_, ?_⟩
  · unfold calculateTextSimilarity
    split_ifs with h
    · exact le_refl 0
    · positivity
  · unfold calculateTextSimilarity
    split_ifs with h
    · norm_num
    · have hpos : (0 : ℚ) < ((wordSet a ∪ wordSet b).card : ℚ) := by
        have : 0 < (wordSet a ∪ wordSet b).card := Nat.pos_of_ne_zero h
        exact_mod_cast this
      rw [div_le_one hpos]
      have hsub : (wordSet a ∩ wordSet b).card ≤ (wordSet a ∪ wordSet b).card :=
        Finset.card_le_card
          ((Finset.inter_subset_left).trans Finset.subset_union_left)
      exact_mod_cast hsub
  · unfold calculateTextSimilarity
    rw [Finset.inter_comm, Finset.union_comm]
  · intro h
    unfold calculateTextSimilarity
    rw [h]
    simp
  · intro h
    unfold calculateTextSimilarity
    have hw : wordSet a = ∅ := by
      unfold wordSet
      rw [h]
      rfl
    split_ifs with hc
    · norm_num
    · rw [hw]
      simp
      norm_num

/-- C10 witness: a whitespace-only query against an empty text. -/
theorem C10_similarity_safe_witness :
    (wordSet (' ' :: ' ' :: []) ∪ wordSet [] = ∅ ∧
      calculateTextSimilarity (' ' :: ' ' :: []) [] = 0) ∧
    (pySplitWs (pyStrip (pyLower (' ' :: ' ' :: []))) = [] ∧
      ¬ ((3 : ℚ) / 5 < calculateTextSimilarity (' ' :: ' ' :: []) [])) :=
  ⟨⟨by decide, (C10_similarity_safe (' ' :: ' ' :: []) []).2.2.2.1 (by decide)⟩,
   ⟨by decide, (C10_similarity_safe (' ' :: ' ' :: []) []).2.2.2.2 (by decide)⟩⟩

theorem matchCauNum_cau3 (suf : Str) :
    matchCauNum (('c' :: 'â' :: 'u' :: ' ' :: '3' :: []) ++ suf) = true := rfl

theorem searchAt_of_suffix_match (m : Str → Bool) :
    ∀ (pre rest : Str), m rest = true → searchAt m (pre ++ rest) = true
  | [], rest, h => by
    cases rest with
    | nil => simpa [searchAt] using h
    | cons c r => simp [searchAt, h]
  | p :: pre, rest, h => by
    simp [searchAt, searchAt_of_suffix_match m pre rest h]

/-- C4: a query matching an explicit pattern — in particular one whose
lower-cased text contains the substring "câu 3" — is blocked with confidence 1
and method "explicit", for every quiz, cache and LLM behaviour: the explicit
layer short-circuits the similarity and LLM layers. -/
theorem C4_explicit_short_circuit (query : Str) (quiz : QuizInfo)
    (cache : List ((String × Str) × GuardResult)) (llm : Except Unit Str) :
    (hasExplicitCheating query = true →
      isCheating query quiz cache llm =
        { is_blocked := true, confidence := 1, method := "explicit" }) ∧
    (∀ pre suf, pyLower query = pre ++ ('c' :: 'â' :: 'u' :: ' ' :: '3' :: []) ++ suf →
      isCheating query quiz cache llm =
        { is_blocked := true, confidence := 1, method := "explicit" }) := by
  constructor
  · intro h
    unfold isCheating
    rw [h]
    rfl
  · intro pre suf h
    have hm : searchAt matchCauNum (pre ++ 'c' :: 'â' :: 'u' :: ' ' :: '3' :: suf) = true :=
      searchAt_of_suffix_match matchCauNum pre ('c' :: 'â' :: 'u' :: ' ' :: '3' :: suf)
        (matchCauNum_cau3 suf)
    have hexp : hasExplicitCheating query = true := by
      unfold hasExplicitCheating
      rw [h]
      simp [hm]
    unfold isCheating
    rw [hexp]
    rfl

/-- C4 witness: the query "Giải câu 3 giúp em" with an arbitrary quiz. -/
theorem C4_explicit_short_circuit_witness :
    isCheating ("Giải câu 3 giúp em".data)
        { id := "quiz_1", content := "nội dung".data, subject := none, topic := none }
        [] (Except.ok ("NO".data)) =
      { is_blocked := true, confidence := 1, method := "explicit" } :=
  (C4_explicit_short_circuit ("Giải câu 3 giúp em".data)
      { id := "quiz_1", content := "nội dung".data, subject := none, topic := none }
      [] (Except.ok ("NO".data))).2
    ("giải ".data) (" giúp em".data) (by decide)

/-- C5: when neither the explicit layer nor the similarity layer blocks and
the result is not cached, a failing LLM call yields blocked with confidence
0.5 and method "error" — the guard fails closed. -/
theorem C5_llm_failure_blocks (query : Str) (quiz : QuizInfo)
    (cache : List ((String × Str) × GuardResult))
    (h1 : hasExplicitCheating query = false)
    (h2 : ∀ q ∈ extractAllQuestions quiz.content,
      calculateTextSimilarity query q ≤ 3 / 5)
    (h3 : cacheGet cache (quiz.id, query) = none) :
    isCheating query quiz cache (Except.error ()) =
      { is_blocked := true, confidence := 1 / 2, method := "error" } := by
  unfold isCheating
  rw [h1]
  have hf : (extractAllQuestions quiz.content).find?
      (fun q => decide ((3 : ℚ) / 5 < calculateTextSimilarity query q)) = none := by
    apply List.find?_eq_none.mpr
    intro q hq
    simpa using not_lt.mpr (h2 q hq)
  simp only [Bool.false_eq_true, if_false, hf]
  unfold llmClassify
  rw [h3]

/-- C5 witness: a harmless query, a quiz with no extractable questions, an
empty cache and a failing LLM. -/
theorem C5_llm_failure_blocks_witness :
    isCheating ("xin chào".data)
        { id := "quiz_2", content := "x".data, subject := none, topic := none }
        [] (Except.error ()) =
      { is_blocked := true, confidence := 1 / 2, method := "error" } :=
  C5_llm_failure_blocks ("xin chào".data)
    { id := "quiz_2", content := "x".data, subject := none, topic := none }
    [] (by decide) (by decide) rfl

/-- C1 witness: a two-entry key graded against fully matching, non-matching
and fewer-matching answer strings. -/
theorem C1_grade_submission_witness :
    (parseAnswerMap ("1-A,2-B".data) ≠ [] ∧
      grade_submission ("1-a,2-b".data) ("1-A,2-B".data) = 10) ∧
    ((∀ e ∈ parseAnswerMap ("1-A,2-B".data),
        dictGet (parseAnswerMap ("3-C".data)) e.1 ≠ some e.2) ∧
      grade_submission ("3-C".data) ("1-A,2-B".data) = 0) ∧
    (correctCount ("3-C".data) ("1-A,2-B".data) ≤
        correctCount ("1-a,2-b".data) ("1-A,2-B".data) ∧
      grade_submission ("3-C".data) ("1-A,2-B".data) ≤
        grade_submission ("1-a,2-b".data) ("1-A,2-B".data)) :=
  ⟨⟨by decide,
    (C1_grade_submission ("1-a,2-b".data) ("1-A,2-B".data)).2.2.1 (by decide) (by decide)⟩,
   ⟨by decide,
    (C1_grade_submission ("3-C".data) ("1-A,2-B".data)).2.2.2.1 (by decide)⟩,
   ⟨by decide,
    (C1_grade_submission ("3-C".data) ("1-A,2-B".data)).2.2.2.2 ("1-a,2-b".data) (by decide)⟩⟩

/-!
### `QuizGenerator._extract_answer_key` (src/src/tools/quiz_generator.py:388–441)
-/

/-- Case-insensitive literal (a literal inside an `re.IGNORECASE` pattern). -/
def litCI : Str → Str → Option Str
  | [], s => some s
  | _ :: _, [] => none
  | p :: ps, c :: cs => if pyLowerChar p == pyLowerChar c then litCI ps cs else none

/-- One `[0-9]+-[A-D]` pair under IGNORECASE: returns the consumed characters
and the remainder. -/
def pairTok : Str → Option (Str × Str)
  | [] => none
  | c :: rest =>
    if isDigitChar c then
      match rest.dropWhile isDigitChar with
      | '-' :: c2 :: r2 =>
        if letterADci c2 then
          some (c :: rest.takeWhile isDigitChar ++ '-' :: c2 :: [], r2)
        else none
      | _ => none
    else none

/-- Greedy `(?:,\s*[0-9]+-[A-D])*` loop: consumed characters and remainder. -/
def pairsTail : Nat → Str → Str × Str
  | 0, l => ([], l)
  | fuel + 1, l =>
    match l with
    | ',' :: r =>
      match pairTok (r.dropWhile isWsChar) with
      | some pr =>
        let t := pairsTail fuel pr.2
        (',' :: (r.takeWhile isWsChar ++ pr.1 ++ t.1), t.2)
      | none => ([], l)
    | _ => ([], l)

/-- The captured group `([0-9]+-[A-D](?:,\s*[0-9]+-[A-D])+)`: a pair followed
by at least one comma-separated pair. -/
def pairsGroup (l : Str) : Option (Str × Str) :=
  match pairTok l with
  | some pr =>
    let t := pairsTail pr.2.length pr.2
    if t.1.isEmpty then none else some (pr.1 ++ t.1, t.2)
  | none => none

/-- Pattern 1, `<!--\s*ANSWER_KEY:\s*(pairs)\s*-->` (IGNORECASE), anchored at
the current position; returns the captured group. -/
def matchMarkerAt (l : Str) : Option Str :=
  match litCI ('<' :: '!' :: '-' :: '-' :: []) l with
  | none => none
  | some r1 =>
    match litCI ("ANSWER_KEY:".data) (wsStar r1) with
    | none => none
    | some r2 =>
      match pairsGroup (wsStar r2) with
      | none => none
      | some gr =>
        match litCI ('-' :: '-' :: '>' :: []) (wsStar gr.2) with
        | some _ => some gr.1
        | none => none

/-- `re.search` of pattern 1: leftmost match. -/
def findMarker : Str → Option Str
  | [] => none
  | c :: rest =>
    match matchMarkerAt (c :: rest) with
    | some g => some g
    | none => findMarker rest

/-- Pattern 2, `(?:Đáp án:|Answer key:|Answers:)\s*(pairs)` (IGNORECASE),
anchored at the current position. -/
def matchInlineKeyAt (l : Str) : Option Str :=
  match
    (match litCI ("Đáp án:".data) l with
     | some r => some r
     | none =>
       match litCI ("Answer key:".data) l with
       | some r => some r
       | none => litCI ("Answers:".data) l)
  with
  | some r => (pairsGroup (wsStar r)).map (·.1)
  | none => none

/-- `re.search` of pattern 2. -/
def findInlineKey : Str → Option Str
  | [] => none
  | c :: rest =>
    match matchInlineKeyAt (c :: rest) with
    | some g => some g
    | none => findInlineKey rest

/-- One `\d+\.\s*[A-D]\s*\n?` item of pattern 3 (the letter class is
case-insensitive because the whole pattern carries IGNORECASE): consumed
characters and remainder. -/
def listItemTok : Str → Option (Str × Str)
  | [] => none
  | c :: rest =>
    if isDigitChar c then
      match rest.dropWhile isDigitChar with
      | '.' :: r2 =>
        match r2.dropWhile isWsChar with
        | x :: r4 =>
          if letterADci x then
            some (c :: rest.takeWhile isDigitChar ++ '.' :: r2.takeWhile isWsChar ++
              x :: r4.takeWhile isWsChar, r4.dropWhile isWsChar)
          else none
        | [] => none
      | _ => none
    else none

/-- Greedy `(?:\d+\.\s*[A-D]\s*\n?)*` loop. -/
def listItemsGo : Nat → Str → Str × Str
  | 0, l => ([], l)
  | fuel + 1, l =>
    match listItemTok l with
    | some tr =>
      let t := listItemsGo fuel tr.2
      (tr.1 ++ t.1, t.2)
    | none => ([], l)

/-- Pattern 3, `\*\*Đáp án:\*\*\s*\n((?:\d+\.\s*[A-D]\s*\n?)+)`
(IGNORECASE | MULTILINE), anchored at the current position.  The `\s*\n`
matches exactly when the whitespace run after the label ends with a newline
(backtracking of the greedy `\s*` against the required `\n` and the
digit-initial group). -/
def matchListKeyAt (l : Str) : Option Str :=
  match litCI ("**Đáp án:**".data) l with
  | none => none
  | some r =>
    match (r.takeWhile isWsChar).getLast? with
    | some '\n' =>
      match listItemsGo (r.dropWhile isWsChar).length (r.dropWhile isWsChar) with
      | ([], _) => none
      | (g :: gs, _) => some (g :: gs)
    | _ => none

/-- `re.search` of pattern 3. -/
def findListKey : Str → Option Str
  | [] => none
  | c :: rest =>
    match matchListKeyAt (c :: rest) with
    | some g => some g
    | none => findListKey rest

/-- Post-processing of a pattern-3 line: `re.match(r'(\d+)\.\s*([A-D])',
line.strip())` (no IGNORECASE here), reformatted as `N-L`. -/
def lineAnswer (line : Str) : Option Str :=
  match pyStrip line with
  | [] => none
  | c :: rest =>
    if isDigitChar c then
      match rest.dropWhile isDigitChar with
      | '.' :: r2 =>
        match r2.dropWhile isWsChar with
        | x :: _ =>
          if upLetterAD x then
            some (c :: rest.takeWhile isDigitChar ++ '-' :: x :: [])
          else none
        | [] => none
      | _ => none
    else none

/-- Pattern-3 post-processing: split the captured group into lines, keep the
well-formed ones, and succeed only with exactly 10 answers. -/
def extractFromListKey (g : Str) : Option Str :=
  let answers := (splitOnChar '\n' (pyStrip g)).filterMap lineAnswer
  if answers.length = 10 then some (joinChar ',' answers) else none

/-- A pattern-4 line: `re.match(r'^\s*(\d+)\.\s*([A-D])\s*$', line.strip())`
(upper-case letters only, nothing after the letter), reformatted as `N-L`. -/
def bareLineAnswer (line : Str) : Option Str :=
  match pyStrip line with
  | [] => none
  | c :: rest =>
    if isDigitChar c then
      match rest.dropWhile isDigitChar with
      | '.' :: r2 =>
        match r2.dropWhile isWsChar with
        | x :: tail =>
          if upLetterAD x && (tail.dropWhile isWsChar).isEmpty then
            some (c :: rest.takeWhile isDigitChar ++ '-' :: x :: [])
          else none
        | [] => none
      | _ => none
    else none

/-- Pattern-4 fold over the lines of the markdown: accumulate consecutive
well-formed `N. X` lines, reset on any other line, and return as soon as 10
are collected. -/
def pattern4Fold : List Str → List Str → Option Str
  | [], _ => none
  | line :: rest, acc =>
    match bareLineAnswer line with
    | some a =>
      if (acc ++ [a]).length = 10 then some (joinChar ',' (acc ++ [a]))
      else pattern4Fold rest (acc ++ [a])
    | none => pattern4Fold rest []

/-- Pattern 4: ten consecutive bare `N. X` lines anywhere. -/
def extractPattern4 (markdown : Str) : Option Str :=
  pattern4Fold (splitOnChar '\n' markdown) []

/-- `QuizGenerator._extract_answer_key`: the four patterns in priority order.
Patterns 1 and 2 win with any captured group (at least two pairs); pattern 3
requires exactly 10 post-processed answers, otherwise pattern 4 runs. -/
def extract_answer_key (markdown : Str) : Option Str :=
  match findMarker markdown with
  | some g => some (removeSpaces g)
  | none =>
    match findInlineKey markdown with
    | some g => some (removeSpaces g)
    | none =>
      match findListKey markdown with
      | some g =>
        match extractFromListKey g with
        | some r => some r
        | none => extractPattern4 markdown
      | none => extractPattern4 markdown

/-- The canonical answer-key marker of the spec. -/
def canonicalMarker : Str :=
  "<!-- ANSWER_KEY: 1-A,2-B,3-C,4-D,5-A,6-B,7-C,8-D,9-A,10-B -->".data

/-- The canonical answer-key string. -/
def canonicalKey : Str := "1-A,2-B,3-C,4-D,5-A,6-B,7-C,8-D,9-A,10-B".data

theorem toNat_ofNat_of_valid {n : Nat} (hv : n.isValidChar) :
    (Char.ofNat n).toNat = n := by
  simp [Char.ofNat, hv, Char.ofNatAux, Char.toNat, UInt32.ofNatCore, UInt32.toNat,
    BitVec.toNat_ofNatLt]

theorem char_ofNat_ne_60 {m : Nat} (hm : m ≠ 60) (hv : m.isValidChar) :
    Char.ofNat m ≠ '<' := by
  intro h
  have hn := congrArg Char.toNat h
  rw [toNat_ofNat_of_valid hv] at hn
  have h60 : Char.toNat '<' = 60 := rfl
  omega

theorem pyLowerChar_eq_lt {c : Char} (h : pyLowerChar c = '<') : c = '<' := by
  unfold pyLowerChar at h
  split_ifs at h with h1 h2 h3 h4 h5
  · simp at h1
    exact absurd h (char_ofNat_ne_60 (by omega) (Or.inl (by omega)))
  · simp at h2
    exact absurd h (char_ofNat_ne_60 (by omega) (Or.inl (by omega)))
  · simp at h3
    exact absurd h (char_ofNat_ne_60 (by omega) (Or.inl (by omega)))
  · simp at h4
    rcases h4 with h4 | h4 <;>
      exact absurd h (char_ofNat_ne_60 (by omega) (Or.inl (by omega)))
  · simp at h5
    exact absurd h (char_ofNat_ne_60 (by omega) (Or.inl (by omega)))
  · exact h

theorem matchMarkerAt_cons_none {c : Char} (hc : pyLowerChar c ≠ '<') (l : Str) :
    matchMarkerAt (c :: l) = none := by
  have hlit : litCI ('<' :: '!' :: '-' :: '-' :: []) (c :: l) = none := by
    unfold litCI
    have hbeq : (pyLowerChar '<' == pyLowerChar c) = false := by
      have h0 : pyLowerChar '<' = '<' := rfl
      rw [h0]
      exact beq_eq_false_iff_ne.mpr (fun he => hc he.symm)
    rw [hbeq]
    simp
  unfold matchMarkerAt
  rw [hlit]

theorem findMarker_append {pre : Str} (hpre : ∀ c ∈ pre, pyLowerChar c ≠ '<')
    {rest g : Str} (hm : matchMarkerAt rest = some g) :
    findMarker (pre ++ rest) = some g := by
  induction pre with
  | nil =>
    cases rest with
    | nil => simp [matchMarkerAt, litCI] at hm
    | cons c r =>
      show findMarker (c :: r) = some g
      unfold findMarker
      rw [hm]
  | cons c pre ih =>
    show findMarker (c :: (pre ++ rest)) = some g
    unfold findMarker
    rw [matchMarkerAt_cons_none (hpre c (by simp)) (pre ++ rest)]
    exact ih (fun x hx => hpre x (by simp [hx]))

theorem matchMarkerAt_canonical (suf : Str) :
    matchMarkerAt (canonicalMarker ++ suf) = some canonicalKey := rfl

/-- C3 counterexample: a marker carrying only two pairs is returned as the
answer key (so the winning pattern did not yield exactly 10 pairs, and the
result is not null although no pattern yields 10 pairs), and a two-pair
marker placed before the canonical one beats it. -/
theorem C3_extract_answer_key_counterexample :
    extract_answer_key ("<!-- ANSWER_KEY: 1-A,2-B -->".data) =
      some ("1-A,2-B".data) ∧
    extract_answer_key
        ("<!-- ANSWER_KEY: 9-D,10-C --> <!-- ANSWER_KEY: 1-A,2-B,3-C,4-D,5-A,6-B,7-C,8-D,9-A,10-B -->".data) =
      some ("9-D,10-C".data) := by
  constructor <;> decide

/-- C3 (amended): extraction tries the four patterns in priority order, and
patterns 1–2 win with their first match (at least two well-formed pairs)
while patterns 3–4 require exactly 10; when the canonical marker is embedded
after a prefix containing no character that lower-cases to "<", extraction
returns exactly "1-A,2-B,3-C,4-D,5-A,6-B,7-C,8-D,9-A,10-B"; when no pattern
matches (a pattern-3 match not yielding 10 answers falls through to
pattern 4), the result is null. -/
theorem C3_extract_answer_key_amended :
    (∀ pre suf, (∀ c ∈ pre, pyLowerChar c ≠ '<') →
      extract_answer_key (pre ++ (canonicalMarker ++ suf)) = some canonicalKey) ∧
    (∀ md g, findMarker md = some g →
      extract_answer_key md = some (removeSpaces g)) ∧
    (∀ md, findMarker md = none → findInlineKey md = none → findListKey md = none →
      extractPattern4 md = none → extract_answer_key md = none) ∧
    (∀ md g, findMarker md = none → findInlineKey md = none →
      findListKey md = some g → extractFromListKey g = none →
      extractPattern4 md = none → extract_answer_key md = none) := by
  have hp1 : ∀ md g, findMarker md = some g →
      extract_answer_key md = some (removeSpaces g) := by
    intro md g h
    unfold extract_answer_key
    rw [h]
  refine ⟨?_, hp1, ?_, ?_⟩
  · intro pre suf hpre
    have hf := findMarker_append hpre (matchMarkerAt_canonical suf)
    rw [hp1 _ _ hf]
    have hr : removeSpaces canonicalKey = canonicalKey := by decide
    rw [hr]
  · intro md h1 h2 h3 h4
    unfold extract_answer_key
    rw [h1, h2, h3, h4]
  · intro md g h1 h2 h3 hg h4
    unfold extract_answer_key
    rw [h1, h2, h3]
    dsimp only
    rw [hg, h4]

/-- C3 witness: concrete instantiations of all four amended conjuncts. -/
theorem C3_extract_answer_key_amended_witness :
    ((∀ c ∈ ("# Quiz\n".data), pyLowerChar c ≠ '<') ∧
      extract_answer_key (("# Quiz\n".data) ++ (canonicalMarker ++ "\nend".data)) =
        some canonicalKey) ∧
    (findMarker ("z <!-- ANSWER_KEY: 1-A,2-B --> z".data) = some ("1-A,2-B".data) ∧
      extract_answer_key ("z <!-- ANSWER_KEY: 1-A,2-B --> z".data) =
        some (removeSpaces ("1-A,2-B".data))) ∧
    (findMarker ("hello".data) = none ∧
      extract_answer_key ("hello".data) = none) ∧
    (findListKey ("ab **Đáp án:**\n1. A\n2. B".data) = some ("1. A\n2. B".data) ∧
      extract_answer_key ("ab **Đáp án:**\n1. A\n2. B".data) = none) :=
  ⟨⟨by decide,
    C3_extract_answer_key_amended.1 ("# Quiz\n".data) ("\nend".data) (by decide)⟩,
   ⟨by decide,
    C3_extract_answer_key_amended.2.1 ("z <!-- ANSWER_KEY: 1-A,2-B --> z".data)
      ("1-A,2-B".data) (by decide)⟩,
   ⟨by decide,
    C3_extract_answer_key_amended.2.2.1 ("hello".data)
      (by decide) (by decide) (by decide) (by decide)⟩,
   ⟨by decide,
    C3_extract_answer_key_amended.2.2.2 ("ab **Đáp án:**\n1. A\n2. B".data)
      ("1. A\n2. B".data) (by decide) (by decide) (by decide) (by decide) (by decide)⟩⟩

/-!
### `SimpleAgent._should_submit_quiz` (src/query.py:588–618)
-/

/-- The submission keywords of `_should_submit_quiz`. -/
def submissionKeywords : List Str :=
  ["nộp bài".data, "nộp đề".data, "nộp".data, "submit".data, "answer".data]

/-- Does the lower-cased query contain one of the submission keywords? -/
def hasSubmissionKeyword (q : Str) : Bool :=
  submissionKeywords.any (fun kw => hasSub kw (pyLower q))

/-- One iteration `\d+\s*-\s*[A-D]\s*,?\s*` of the answer pattern
(IGNORECASE): the remainder after a successful iteration.  The greedy
sub-matches are separated by disjoint character classes, so greedy scanning
agrees with the regex's backtracking. -/
def answerPairStep (l : Str) : Option Str :=
  match digitsPlus l with
  | none => none
  | some r1 =>
    match wsStar r1 with
    | '-' :: r2 =>
      match wsStar r2 with
      | x :: r3 =>
        if letterADci x then
          match wsStar r3 with
          | ',' :: r4 => some (wsStar r4)
          | r4 => some r4
        else none
      | [] => none
    | _ => none

/-- Number of consecutive iterations of the answer pattern from this
position. -/
def answerPairCount : Nat → Str → Nat
  | 0, _ => 0
  | fuel + 1, l =>
    match answerPairStep l with
    | some r => answerPairCount fuel r + 1
    | none => 0

/-- `re.search` of `(\d+\s*-\s*[A-D]\s*,?\s*){n,}`: some position admits at
least `n` consecutive iterations. -/
def answerPatternSearch (n : Nat) : Str → Bool
  | [] => decide (n = 0)
  | c :: rest =>
    decide (n ≤ answerPairCount (c :: rest).length (c :: rest)) ||
    answerPatternSearch n rest

/-- `SimpleAgent._should_submit_quiz`: a submission keyword in the lower-cased
query, or the answer pattern with at least 5 pairs anywhere in the query. -/
def shouldSubmitQuiz (q : Str) : Bool :=
  hasSubmissionKeyword q || answerPatternSearch 5 q

theorem answerPatternSearch_mono {m n : Nat} (hmn : m ≤ n) :
    ∀ q : Str, answerPatternSearch n q = true → answerPatternSearch m q = true := by
  intro q
  induction q with
  | nil =>
    intro h
    simp [answerPatternSearch] at h ⊢
    omega
  | cons c rest ih =>
    intro h
    rcases Bool.or_eq_true_iff.mp h with h1 | h1
    · apply Bool.or_eq_true_iff.mpr
      left
      simp at h1 ⊢
      omega
    · exact Bool.or_eq_true_iff.mpr (Or.inr (ih h1))

/-- C2 counterexample: a bare answer string with exactly 5 number-letter pairs
and none of the keywords is classified as submission intent, although it does
not match the pattern with 10 pairs. -/
theorem C2_should_submit_counterexample :
    shouldSubmitQuiz ("1-A,2-B,3-C,4-D,5-A".data) = true ∧
    hasSubmissionKeyword ("1-A,2-B,3-C,4-D,5-A".data) = false ∧
    answerPatternSearch 10 ("1-A,2-B,3-C,4-D,5-A".data) = false := by
  refine ⟨by decide, by decide, by decide⟩

/-- C2 (amended): a message carries submission intent exactly when it contains
a submission keyword or matches the repeated number-letter pattern with at
least 5 pairs (not 10); 10 or more pairs still trigger it, and a message with
neither a keyword nor 5 consecutive pairs is not routed into the submission
flow. -/
theorem C2_should_submit_amended (q : Str) :
    (shouldSubmitQuiz q = (hasSubmissionKeyword q || answerPatternSearch 5 q)) ∧
    (answerPatternSearch 10 q = true → shouldSubmitQuiz q = true) ∧
    (hasSubmissionKeyword q = false → answerPatternSearch 5 q = false →
      shouldSubmitQuiz q = false) := by
  refine ⟨rfl, ?_, ?_⟩
  · intro h
    unfold shouldSubmitQuiz
    rw [answerPatternSearch_mono (by omega) q h]
    simp
  · intro h1 h2
    unfold shouldSubmitQuiz
    rw [h1, h2]
    rfl

/-- C2 witness: a 10-pair message triggers submission intent; a greeting does
not. -/
theorem C2_should_submit_amended_witness :
    (answerPatternSearch 10 ("1-A,2-B,3-C,4-D,5-A,6-B,7-C,8-D,9-A,10-B".data) = true ∧
      shouldSubmitQuiz ("1-A,2-B,3-C,4-D,5-A,6-B,7-C,8-D,9-A,10-B".data) = true) ∧
    (hasSubmissionKeyword ("xin chào bạn".data) = false ∧
      shouldSubmitQuiz ("xin chào bạn".data) = false) :=
  ⟨⟨by decide,
    (C2_should_submit_amended ("1-A,2-B,3-C,4-D,5-A,6-B,7-C,8-D,9-A,10-B".data)).2.1
      (by decide)⟩,
   ⟨by decide,
    (C2_should_submit_amended ("xin chào bạn".data)).2.2 (by decide) (by decide)⟩⟩

/-!
### `QuizStorage` and `SubmissionManager` persistent state
(src/src/tools/quiz_storage.py, src/src/tools/submission_manager.py)
-/

/-- A row of the `quizzes` table. -/
structure QuizRow where
  id : String
  student_id : String
  date : Str
  daily_count : Nat
  content : Str
  subject : Option String
  topic : Option String
  difficulty : Option String
  num_questions : Nat
  time_limit : Nat
  answer_key : Option Str
  status : String
  deriving DecidableEq

/-- A row of the `submissions` table. -/
structure SubmissionRow where
  id : String
  quiz_id : String
  student_id : String
  student_answers : Str
  score : ℚ
  daily_count : Nat
  submitted_at : Str
  duration : ℤ
  deriving DecidableEq

/-- The persistent store (both tables live in quiz_storage.db). -/
structure World where
  quizzes : List QuizRow
  submissions : List SubmissionRow
  deriving DecidableEq

/-- SQLite's ordering of TEXT timestamps: lexicographic on code points (equal
to byte order for UTF-8). -/
def ltStr : Str → Str → Bool
  | [], [] => false
  | [], _ :: _ => true
  | _ :: _, [] => false
  | a :: as, b :: bs => if a < b then true else if b < a then false else ltStr as bs

/-- Keep the row with the strictly greater `date` (ties keep the earlier
row). -/
def pickLatest (best : Option QuizRow) (q : QuizRow) : Option QuizRow :=
  match best with
  | none => some q
  | some b => if ltStr b.date q.date then some q else some b

/-- `QuizStorage.get_latest_pending_quiz`: the pending quiz of the student
with the greatest `date` (on ties the earlier row is kept, one valid
realisation of SQLite's unspecified tie order). -/
def getLatestPendingQuiz (w : World) (sid : String) : Option QuizRow :=
  (w.quizzes.filter (fun q => q.student_id == sid && q.status == "pending")).foldl
    pickLatest none

/-- `QuizStorage._get_today_count`: quizzes of the student created today
(`date LIKE 'YYYY-MM-DD%'`, the prefix being the first ten characters of the
clock string). -/
def getTodayCount (w : World) (sid : String) (now : Str) : Nat :=
  (w.quizzes.filter
    (fun q => q.student_id == sid && startsWith (now.take 10) q.date)).length

/-- `QuizStorage.save_quiz`: append a `pending` row carrying the generated id,
the current timestamp and today's ordinal count; returns the id.  `now` is
`datetime.now().isoformat()` and `newId` the generated
`quiz_{timestamp}_{uuid}` identifier. -/
def saveQuiz (w : World) (sid : String) (content : Str) (answerKey : Str)
    (subject topic difficulty : Option String) (now : Str) (newId : String) :
    String × World :=
  let row : QuizRow :=
    { id := newId, student_id := sid, date := now,
      daily_count := getTodayCount w sid now + 1, content := content,
      subject := subject, topic := topic, difficulty := difficulty,
      num_questions := 10, time_limit := 15,
      answer_key := some answerKey, status := "pending" }
  (newId, { w with quizzes := w.quizzes ++ [row] })

/-- `QuizStorage.get_quiz`. -/
def getQuiz (w : World) (quizId : String) : Option QuizRow :=
  w.quizzes.find? (fun q => q.id == quizId)

/-- `QuizStorage.update_quiz_status`. -/
def updateQuizStatus (w : World) (quizId status : String) : World :=
  { w with quizzes :=
      w.quizzes.map (fun q => if q.id == quizId then { q with status := status } else q) }

/-- `SubmissionManager.check_quiz_submitted`. -/
def checkQuizSubmitted (w : World) (quizId sid : String) : Bool :=
  w.submissions.any (fun s => s.quiz_id == quizId && s.student_id == sid)

/-- `SubmissionManager._get_today_submission_count`. -/
def getTodaySubmissionCount (w : World) (sid : String) (now : Str) : Nat :=
  (w.submissions.filter
    (fun s => s.student_id == sid && startsWith (now.take 10) s.submitted_at)).length

/-- `SubmissionManager.submit_quiz` (success path): grade, compute the daily
count and the duration, and insert the submission row.  Returns
(score, dailyCount, duration) and the new store. -/
def submitQuiz (w : World) (quizId sid : String) (answers key : Str)
    (subId : String) (now : Str) (createdAt : Option ℚ) (nowSeconds : ℚ) :
    (ℚ × Nat × ℤ) × World :=
  let dc := getTodaySubmissionCount w sid now + 1
  let score := grade_submission answers key
  let dur := computeDuration createdAt nowSeconds
  let row : SubmissionRow :=
    { id := subId, quiz_id := quizId, student_id := sid,
      student_answers := answers, score := score, daily_count := dc,
      submitted_at := now, duration := dur }
  ((score, dc, dur), { w with submissions := w.submissions ++ [row] })

/-!
### `SimpleAgent` intent predicates (src/query.py)
-/

/-- The view-quiz keywords of `_should_view_quiz` (src/query.py:620–647). -/
def viewKeywords : List Str :=
  ["xem lại đề".data, "nhắc lại đề".data, "xem đề".data, "hiển thị đề".data,
   "cho tôi xem đề".data, "cho em xem đề".data, "cho mình xem đề".data,
   "đề nào".data, "đề gì".data, "bài thi nào".data, "bài kiểm tra nào".data,
   "show quiz".data, "view quiz".data, "display quiz".data,
   "xem bài".data, "xem lại bài".data, "nhắc bài".data, "đọc lại đề".data]

/-- `SimpleAgent._should_view_quiz`. -/
def shouldViewQuiz (q : Str) : Bool :=
  viewKeywords.any (fun kw => hasSub kw (pyLower q))

/-- The quiz-creation keywords of `_should_create_quiz`
(src/query.py:477–533). -/
def quizKeywords : List Str :=
  ["tạo đề".data, "ra đề".data, "đề thi".data, "bài kiểm tra".data,
   "quiz".data, "test".data,
   "trắc nghiệm".data, "15 phút".data, "30 phút".data,
   "kiểm tra".data, "bài thi".data,
   "cho tôi bài".data, "cho em bài".data, "cho mình bài".data,
   "cho tôi đề".data, "cho em đề".data, "cho mình đề".data,
   "tạo bài".data, "ra bài".data, "làm bài".data,
   "muốn bài".data, "cần bài".data, "muốn đề".data, "cần đề".data]

/-- The first literal alternative that matches, with its remainder (all
alternation groups below have alternatives with pairwise distinct first
characters, so committing is equivalent to backtracking). -/
def litAlt : List Str → Str → Option Str
  | [], _ => none
  | a :: as, l =>
    match lit a l with
    | some r => some r
    | none => litAlt as l

/-- Alternation with continuation. -/
def altLit (alts : List Str) (k : Str → Bool) (l : Str) : Bool :=
  alts.any (fun a =>
    match lit a l with
    | some r => k r
    | none => false)

/-- Optional group `(...)?` with continuation: try with, then without. -/
def optStep (p : Str → Option Str) (k : Str → Bool) (l : Str) : Bool :=
  (match p l with
   | some r => k r
   | none => false) || k l

/-- Pattern `cho\s+(tôi|em|mình)\s+(một|1)?\s*(bài|đề)` anchored here. -/
def matchCreateA (l : Str) : Bool :=
  match lit ("cho".data) l >>= wsPlus with
  | none => false
  | some r =>
    altLit ["tôi".data, "em".data, "mình".data]
      (fun r2 =>
        match wsPlus r2 with
        | none => false
        | some r3 =>
          optStep (litAlt ["một".data, "1".data])
            (fun r4 => (litAlt ["bài".data, "đề".data] (wsStar r4)).isSome) r3)
      r

/-- Pattern `(tạo|ra|làm)\s+(cho\s+)?(tôi|em|mình)?\s*(một|1)?\s*(bài|đề)`
anchored here. -/
def matchCreateB (l : Str) : Bool :=
  altLit ["tạo".data, "ra".data, "làm".data]
    (fun r1 =>
      match wsPlus r1 with
      | none => false
      | some r2 =>
        optStep (fun x => lit ("cho".data) x >>= wsPlus)
          (fun r3 =>
            optStep (litAlt ["tôi".data, "em".data, "mình".data])
              (fun r4 =>
                optStep (litAlt ["một".data, "1".data])
                  (fun r5 => (litAlt ["bài".data, "đề".data] (wsStar r5)).isSome)
                  (wsStar r4))
              r3)
          r2)
    l

/-- Pattern `(muốn|cần|được)\s+(làm|có)?\s*(bài|đề)` anchored here. -/
def matchCreateC (l : Str) : Bool :=
  altLit ["muốn".data, "cần".data, "được".data]
    (fun r1 =>
      match wsPlus r1 with
      | none => false
      | some r2 =>
        optStep (litAlt ["làm".data, "có".data])
          (fun r3 => (litAlt ["bài".data, "đề".data] (wsStar r3)).isSome) r2)
    l

/-- `SimpleAgent._should_create_quiz`: keyword table first, then the three
backup regex patterns, all on the lower-cased query. -/
def shouldCreateQuiz (q : Str) : Bool :=
  quizKeywords.any (fun kw => hasSub kw (pyLower q)) ||
  searchAt matchCreateA (pyLower q) || searchAt matchCreateB (pyLower q) ||
  searchAt matchCreateC (pyLower q)

/-- `SimpleAgent._should_draw_graph` (src/query.py:472–475). -/
def shouldDrawGraph (q : Str) : Bool :=
  ["vẽ đồ thị".data, "vẽ đồ".data, "đồ thị".data, "graph".data, "plot".data,
   "vẽ hàm".data].any (fun kw => hasSub kw (pyLower q))

/-- The off-domain blacklist of `_should_use_tool` (src/query.py:396–455). -/
def blacklistKeywords : List Str :=
  (["bác hồ", "hồ chí minh", "lịch sử", "chiến tranh", "cách mạng",
    "năm nào", "thế kỷ", "triều đại", "vua", "hoàng đế", "nhà",
    "cổ đại", "trung đại", "cận đại", "hiện đại", "phong kiến",
    "độc lập", "giải phóng", "thống nhất", "đế quốc", "thuộc địa",
    "văn học", "thơ", "ca dao", "tục ngữ", "truyện", "tiểu thuyết",
    "tác giả", "tác phẩm", "nhà văn", "nhà thơ", "chữ hán",
    "truyền kỳ", "ngôn tình", "cổ tích", "thần thoại", "truyền thuyết",
    "văn xuôi", "văn vần", "luận điểm", "nghệ thuật", "tu từ",
    "chiếc lược ngà", "vợ chồng a phủ", "chí phèo", "lão hạc",
    "địa lý", "địa hình", "khí hậu", "nhiệt đới", "ôn đới",
    "châu lục", "lục địa", "đại dương", "biển", "sông", "núi",
    "đồng bằng", "cao nguyên", "thủ đô", "tỉnh", "thành phố",
    "dân số", "dân cư", "di cư", "kinh tế", "nông nghiệp",
    "công nghiệp", "thương mại", "du lịch", "giao thông",
    "tiếng anh", "english", "grammar", "vocabulary", "tense",
    "present", "past", "future", "perfect", "continuous",
    "reading", "listening", "speaking", "writing",
    "pronunciation", "accent", "idiom", "phrasal verb",
    "tin học", "máy tính", "computer", "code", "lập trình",
    "python", "java", "javascript", "c++", "html", "css",
    "database", "sql", "algorithm", "data structure",
    "software", "hardware", "network", "internet", "website",
    "công dân", "gdcd", "pháp luật", "hiến pháp", "quyền",
    "nghĩa vụ", "dân chủ", "nhân quyền", "đạo đức", "lương tâm",
    "trách nhiệm", "xã hội", "cộng đồng", "văn hóa", "truyền thống",
    "thể dục", "thể thao", "bóng đá", "bóng rổ", "chạy", "nhảy",
    "âm nhạc", "nhạc", "ca hát", "nhạc cụ", "giai điệu",
    "mỹ thuật", "vẽ", "tranh", "điêu khắc", "kiến trúc",
    "phật giáo", "thiên chúa giáo", "hồi giáo", "đạo",
    "triết học", "triết lý", "tư tưởng", "chủ nghĩa",
    "đảng", "chính phủ", "quốc hội", "tổng thống", "thủ tướng",
    "bầu cử", "dân chủ", "độc tài", "xã hội chủ nghĩa",
    "giá cả", "thị trường", "chứng khoán", "bất động sản",
    "lạm phát", "tỷ giá", "ngân hàng", "tiền tệ",
    "tin tức", "thời sự", "báo chí", "truyền thông",
    "covid", "dịch bệnh", "bệnh viện", "bác sĩ", "y tế",
    "bóng đá việt nam", "world cup", "olympic"] : List String).map String.data

/-- `SimpleAgent._should_use_tool` (src/query.py:377–466): force search when
the upper-cased, space/newline-free query contains "A.", "B." and "C.";
otherwise skip search on a blacklist hit; otherwise try search. -/
def shouldUseTool (q : Str) : Bool :=
  let qn := (pyUpper q).filter (fun c => c != ' ' && c != '\n')
  if hasSub ('A' :: '.' :: []) qn && hasSub ('B' :: '.' :: []) qn &&
      hasSub ('C' :: '.' :: []) qn then true
  else if blacklistKeywords.any (fun kw => hasSub kw (pyLower q)) then false
  else true

/-!
### `SimpleAgent._extract_answers` (src/query.py:684–724)
-/

/-- Python `str.replace(pat, "")`: delete every occurrence of `pat`
(left-to-right, non-overlapping). -/
def removeAllGo (pat : Str) : Nat → Str → Str
  | 0, l => l
  | _ + 1, [] => []
  | fuel + 1, c :: rest =>
    if startsWith pat (c :: rest) then
      removeAllGo pat fuel (List.drop (pat.length - 1) rest)
    else c :: removeAllGo pat fuel rest

/-- Python `str.replace(pat, "")` (for non-empty `pat`). -/
def removeAll (pat s : Str) : Str := removeAllGo pat s.length s

/-- `re.findall(r'(\d+)\s*-?\s*([A-D])', q, re.IGNORECASE)`: the list of
(digits, letter) captures, scanning left to right and continuing after each
match. -/
def findAnswerPairsGo : Nat → Str → List (Str × Char)
  | 0, _ => []
  | _ + 1, [] => []
  | fuel + 1, c :: rest =>
    if isDigitChar c then
      match
        (match (rest.dropWhile isDigitChar).dropWhile isWsChar with
         | '-' :: t => t.dropWhile isWsChar
         | r1 => r1)
      with
      | x :: r3 =>
        if letterADci x then
          (c :: rest.takeWhile isDigitChar, x) :: findAnswerPairsGo fuel r3
        else findAnswerPairsGo fuel rest
      | [] => []
    else findAnswerPairsGo fuel rest

/-- `SimpleAgent._extract_answers`: lower-case the query, delete the
submission prefixes, find all number-letter pairs, require at least 10 and
normalise the first 10 to upper-case `N-L` joined by commas. -/
def extractAnswers (q : Str) : Option Str :=
  let q1 := removeAll ("nộp bài:".data) (pyLower q)
  let q2 := removeAll ("nộp:".data) q1
  let q3 := removeAll ("submit:".data) q2
  let pairs := findAnswerPairsGo q3.length q3
  if pairs.length < 10 then none
  else
    some (joinChar ','
      ((pairs.take 10).map (fun p => p.1 ++ '-' :: pyUpperChar p.2 :: [])))

/-!
### `SimpleAgent.query` (src/query.py:726–1290)
-/

/-- The text templates a chat-completion request can carry (their exact
wording is presentation; see `_get_system_prompt` and the inline f-strings). -/
inductive MsgContent where
  | text (s : Str)
  | sysGeneral
  | sysSearch
  | searchExplain (userQuery : Str) (ans ansText : String)
  deriving DecidableEq

/-- One chat message. -/
structure Msg where
  role : String
  content : MsgContent
  deriving DecidableEq

/-- One retriever hit (`self.retriever.search`). -/
structure SearchResult where
  question_id : String
  correct_answer : String
  correct_answer_text : String
  explanation : String
  score : ℚ
  deriving DecidableEq

/-- The distinct responses of `SimpleAgent.query`, one constructor per return
site (the full Vietnamese texts are presentation):
`noQuizToSubmit` = "❌ Chưa có bài kiểm tra nào được tạo!…" (lines 780–787),
`cannotReadAnswers` = lines 791–804, `quizNotFound` = lines 809–813,
`alreadySubmitted` = lines 815–824, `missingAnswerKey` = lines 827–831,
`submitSuccess` = lines 890–909, `viewQuiz` = lines 925–930,
`cannotCreateWhilePending` = lines 932–951, `guardBlocked` = lines 955–971,
`createFlow` = the quiz-creation flow (lines 976–1106), `graphFlow` = the
graphing flow (lines 1109–1151), `retrievedAnswer` = lines 1210–1219, and
`chatCompletion msgs` = the LLM's reply to `msgs` (fallback, explain and
general chat). -/
inductive AgentResp where
  | noQuizToSubmit
  | cannotReadAnswers (quizId : String)
  | quizNotFound (quizId : String)
  | alreadySubmitted (quizId : String)
  | missingAnswerKey
  | submitSuccess (score : ℚ) (dailyCount : Nat) (duration : ℤ)
  | viewQuiz (content : Str)
  | cannotCreateWhilePending
  | guardBlocked (method : String)
  | createFlow (out : String)
  | graphFlow (out : String)
  | retrievedAnswer (qid ans ansText expl : String)
  | chatCompletion (messages : List Msg)
  deriving DecidableEq

/-- Python `history[-10:]`. -/
def lastN (n : Nat) (l : List Msg) : List Msg := l.drop (l.length - n)

/-- The general-chat message list: system prompt (mode "general"), the last
10 history messages, then the current query (lines 1169–1184 and
1257–1273). -/
def generalMessages (q : Str) (history : List Msg) : List Msg :=
  { role := "system", content := MsgContent.sysGeneral } ::
    lastN 10 history ++ [{ role := "user", content := MsgContent.text q }]

/-- The search-explain message list: system prompt (mode "search"), the last
10 history messages, then the explain template around the retrieved answer
(lines 1222–1252). -/
def searchMessages (q : Str) (history : List Msg) (best : SearchResult) :
    List Msg :=
  { role := "system", content := MsgContent.sysSearch } ::
    lastN 10 history ++
    [{ role := "user",
       content := MsgContent.searchExplain q best.correct_answer
         best.correct_answer_text }]

/-- The Agent's external collaborators: the retriever, the guard's cache and
LLM, the quiz-creation flow (lines 976–1106, which calls the generator and
may persist a quiz), the graphing flow (lines 1109–1151), and the clock/uuid
values consumed by `submit_quiz`. -/
structure AgentEnv where
  search : Str → List SearchResult
  guardCache : List ((String × Str) × GuardResult)
  guardLLM : Except Unit Str
  createQuiz : Str → World → AgentResp × World
  graph : Str → AgentResp
  subNow : Str
  subId : String
  createdAtSeconds : String → Option ℚ
  nowSeconds : ℚ

/-- Steps 3–5 of the dispatch (after the submission check and the
pending-quiz block): quiz creation, graphing, then search with the 0.8
confidence floor, else general chat. -/
def afterPendingFlow (env : AgentEnv) (w : World) (q : Str)
    (history : List Msg) : AgentResp × World :=
  if shouldCreateQuiz q then env.createQuiz q w
  else if shouldDrawGraph q then (env.graph q, w)
  else if shouldUseTool q then
    match env.search q with
    | [] => (AgentResp.chatCompletion (generalMessages q history), w)
    | best :: _ =>
      if best.score < 4 / 5 then
        (AgentResp.chatCompletion (generalMessages q history), w)
      else if best.explanation != "" then
        (AgentResp.retrievedAnswer best.question_id best.correct_answer
          best.correct_answer_text best.explanation, w)
      else (AgentResp.chatCompletion (searchMessages q history best), w)
  else (AgentResp.chatCompletion (generalMessages q history), w)

/-- `SimpleAgent.query`: OCR substitution, the submission flow, the
pending-quiz block (view / refuse-create / guard), then `afterPendingFlow`.
`imageText` is the OCR text extracted from an attached image (`none` for a
text-only message, and an empty extraction keeps the original query). -/
def agentQuery (env : AgentEnv) (w : World) (sid : String)
    (imageText : Option Str) (q0 : Str) (history : List Msg) :
    AgentResp × World :=
  let q := match imageText with
    | some t => if t.isEmpty then q0 else t
    | none => q0
  if shouldSubmitQuiz q then
    match getLatestPendingQuiz w sid with
    | none => (AgentResp.noQuizToSubmit, w)
    | some pending =>
      match extractAnswers q with
      | none => (AgentResp.cannotReadAnswers pending.id, w)
      | some answers =>
        match getQuiz w pending.id with
        | none => (AgentResp.quizNotFound pending.id, w)
        | some quiz =>
          if checkQuizSubmitted w pending.id sid then
            (AgentResp.alreadySubmitted pending.id, w)
          else
            match quiz.answer_key with
            | none => (AgentResp.missingAnswerKey, w)
            | some key =>
              if key.isEmpty then (AgentResp.missingAnswerKey, w)
              else
                let r := submitQuiz w pending.id sid answers key env.subId
                  env.subNow (env.createdAtSeconds pending.id) env.nowSeconds
                (AgentResp.submitSuccess r.1.1 r.1.2.1 r.1.2.2,
                  updateQuizStatus r.2 pending.id "completed")
  else
    match getLatestPendingQuiz w sid with
    | some pending =>
      if shouldViewQuiz q then (AgentResp.viewQuiz pending.content, w)
      else if shouldCreateQuiz q then (AgentResp.cannotCreateWhilePending, w)
      else
        let g := isCheating q
          { id := pending.id, content := pending.content,
            subject := pending.subject, topic := pending.topic }
          env.guardCache env.guardLLM
        if g.is_blocked then (AgentResp.guardBlocked g.method, w)
        else afterPendingFlow env w q history
    | none => afterPendingFlow env w q history

/-!
### Claim theorems for the Agent and the Quiz Ledger
-/

theorem foldl_pickLatest_mem :
    ∀ (xs : List QuizRow) (acc : Option QuizRow) (b : QuizRow),
      xs.foldl pickLatest acc = some b → b ∈ xs ∨ acc = some b := by
  intro xs
  induction xs with
  | nil =>
    intro acc b h
    exact Or.inr h
  | cons x xs ih =>
    intro acc b h
    rcases ih (pickLatest acc x) b h with h1 | h1
    · exact Or.inl (List.mem_cons_of_mem x h1)
    · cases acc with
      | none =>
        simp only [pickLatest, Option.some_inj] at h1
        exact Or.inl (by simp [← h1])
      | some a =>
        by_cases hlt : ltStr a.date x.date = true
        · rw [show pickLatest (some a) x = some x from by simp [pickLatest, hlt]] at h1
          exact Or.inl (by simp [← Option.some_inj.mp h1])
        · rw [show pickLatest (some a) x = some a from by simp [pickLatest, hlt]] at h1
          exact Or.inr h1

theorem foldl_pickLatest_some_ne_none :
    ∀ (xs : List QuizRow) (a : QuizRow), xs.foldl pickLatest (some a) ≠ none := by
  intro xs
  induction xs with
  | nil => intro a h; exact Option.noConfusion h
  | cons x xs ih =>
    intro a h
    rw [List.foldl_cons] at h
    by_cases hlt : ltStr a.date x.date = true
    · rw [show pickLatest (some a) x = some x from by simp [pickLatest, hlt]] at h
      exact ih x h
    · rw [show pickLatest (some a) x = some a from by simp [pickLatest, hlt]] at h
      exact ih a h

theorem foldl_pickLatest_eq_none_iff (xs : List QuizRow) :
    xs.foldl pickLatest none = none ↔ xs = [] := by
  cases xs with
  | nil => simp
  | cons x xs =>
    simp only [List.foldl]
    constructor
    · intro h
      exact absurd h (foldl_pickLatest_some_ne_none xs x)
    · intro h
      exact List.noConfusion h

theorem getLatest_append_new (w : World) (sid : String) (row : QuizRow)
    (hsid : row.student_id = sid) (hst : row.status = "pending")
    (hclock : ∀ qz ∈ w.quizzes, qz.student_id = sid → ltStr qz.date row.date = true) :
    getLatestPendingQuiz { w with quizzes := w.quizzes ++ [row] } sid = some row := by
  unfold getLatestPendingQuiz
  have hfil : (w.quizzes ++ [row]).filter
      (fun q => q.student_id == sid && q.status == "pending") =
      w.quizzes.filter (fun q => q.student_id == sid && q.status == "pending") ++
        [row] := by
    rw [List.filter_append]
    congr 1
    simp [hsid, hst]
  show ((w.quizzes ++ [row]).filter
      (fun q => q.student_id == sid && q.status == "pending")).foldl
      pickLatest none = some row
  rw [hfil, List.foldl_append]
  rcases hfold : (w.quizzes.filter
      (fun q => q.student_id == sid && q.status == "pending")).foldl
      pickLatest none with _ | b
  · rw [hfold]
    rfl
  · rw [hfold]
    simp only [List.foldl_cons, List.foldl_nil]
    have hb := foldl_pickLatest_mem _ none b hfold
    rcases hb with hb | hb
    · have hmem := List.mem_filter.mp hb
      have hbsid : b.student_id = sid := by
        have h2 := hmem.2
        simp only [Bool.and_eq_true, beq_iff_eq] at h2
        exact h2.1
      have hlt := hclock b hmem.1 hbsid
      simp [pickLatest, hlt]
    · exact Option.noConfusion hb

/-- C8: immediately after `saveQuiz` (with the clock ahead of every earlier
row of the student, and no intervening `updateQuizStatus`),
`getLatestPendingQuiz` returns exactly the just-saved pending row; and it
returns null exactly when the student has no pending quiz. -/
theorem C8_save_then_get (w : World) (sid : String) (content answerKey : Str)
    (subject topic difficulty : Option String) (now : Str) (newId : String)
    (hclock : ∀ qz ∈ w.quizzes, qz.student_id = sid → ltStr qz.date now = true) :
    (getLatestPendingQuiz
        (saveQuiz w sid content answerKey subject topic difficulty now newId).2 sid =
      some { id := newId, student_id := sid, date := now,
             daily_count := getTodayCount w sid now + 1, content := content,
             subject := subject, topic := topic, difficulty := difficulty,
             num_questions := 10, time_limit := 15,
             answer_key := some answerKey, status := "pending" }) ∧
    (getLatestPendingQuiz w sid = none ↔
      ∀ qz ∈ w.quizzes, qz.student_id = sid → qz.status ≠ "pending") := by
  constructor
  · exact getLatest_append_new w sid _ rfl rfl hclock
  · unfold getLatestPendingQuiz
    rw [foldl_pickLatest_eq_none_iff, List.filter_eq_nil_iff]
    constructor
    · intro h qz hqz hsid hst
      exact h qz hqz (by simp [hsid, hst])
    · intro h qz hqz hp
      simp only [Bool.and_eq_true, beq_iff_eq] at hp
      exact h qz hqz hp.1 hp.2

/-- C8 witness: saving over a store holding an older pending quiz of the same
student. -/
theorem C8_save_then_get_witness :
    (∀ qz ∈ (World.mk
        [{ id := "quiz_old", student_id := "s1", date := "2026-01-01T08:00:00".data,
           daily_count := 1, content := "old".data, subject := none, topic := none,
           difficulty := none, num_questions := 10, time_limit := 15,
           answer_key := some ("1-A,2-B".data), status := "pending" }] []).quizzes,
      qz.student_id = "s1" → ltStr qz.date ("2026-01-02T09:00:00".data) = true) ∧
    getLatestPendingQuiz
        (saveQuiz (World.mk
          [{ id := "quiz_old", student_id := "s1", date := "2026-01-01T08:00:00".data,
             daily_count := 1, content := "old".data, subject := none, topic := none,
             difficulty := none, num_questions := 10, time_limit := 15,
             answer_key := some ("1-A,2-B".data), status := "pending" }] [])
          "s1" ("new content".data) ("1-A,2-B".data) none none none
          ("2026-01-02T09:00:00".data) "quiz_new").2 "s1" =
      some { id := "quiz_new", student_id := "s1",
             date := "2026-01-02T09:00:00".data,
             daily_count := getTodayCount (World.mk
               [{ id := "quiz_old", student_id := "s1",
                  date := "2026-01-01T08:00:00".data,
                  daily_count := 1, content := "old".data, subject := none,
                  topic := none, difficulty := none, num_questions := 10,
                  time_limit := 15, answer_key := some ("1-A,2-B".data),
                  status := "pending" }] []) "s1" ("2026-01-02T09:00:00".data) + 1,
             content := "new content".data, subject := none, topic := none,
             difficulty := none, num_questions := 10, time_limit := 15,
             answer_key := some ("1-A,2-B".data), status := "pending" } :=
  ⟨by decide,
   (C8_save_then_get (World.mk
      [{ id := "quiz_old", student_id := "s1", date := "2026-01-01T08:00:00".data,
         daily_count := 1, content := "old".data, subject := none, topic := none,
         difficulty := none, num_questions := 10, time_limit := 15,
         answer_key := some ("1-A,2-B".data), status := "pending" }] [])
      "s1" ("new content".data) ("1-A,2-B".data) none none none
      ("2026-01-02T09:00:00".data) "quiz_new" (by decide)).1⟩

/-- C6: a message with submission intent from a student with no pending quiz
yields the no-quiz-to-submit response and leaves the submissions store (and
the whole store) unchanged. -/
theorem C6_submit_without_pending (env : AgentEnv) (w : World) (sid : String)
    (q : Str) (history : List Msg)
    (h1 : shouldSubmitQuiz q = true)
    (h2 : getLatestPendingQuiz w sid = none) :
    agentQuery env w sid none q history = (AgentResp.noQuizToSubmit, w) ∧
    (agentQuery env w sid none q history).2.submissions = w.submissions := by
  have h : agentQuery env w sid none q history = (AgentResp.noQuizToSubmit, w) := by
    unfold agentQuery
    simp [h1, h2]
  exact ⟨h, by rw [h]⟩

/-- C6 witness: the canonical submission message against an empty store. -/
theorem C6_submit_without_pending_witness :
    agentQuery
      { search := fun _ => [], guardCache := [], guardLLM := Except.error (),
        createQuiz := fun _ w => (AgentResp.createFlow "quiz", w),
        graph := fun _ => AgentResp.graphFlow "graph",
        subNow := "2026-01-02T09:00:00".data, subId := "sub_1",
        createdAtSeconds := fun _ => none, nowSeconds := 0 }
      (World.mk [] []) "s1" none
      ("Nộp bài: 1-A,2-B,3-C,4-D,5-A,6-B,7-C,8-D,9-A,10-B".data) [] =
      (AgentResp.noQuizToSubmit, World.mk [] []) :=
  (C6_submit_without_pending
    { search := fun _ => [], guardCache := [], guardLLM := Except.error (),
      createQuiz := fun _ w => (AgentResp.createFlow "quiz", w),
      graph := fun _ => AgentResp.graphFlow "graph",
      subNow := "2026-01-02T09:00:00".data, subId := "sub_1",
      createdAtSeconds := fun _ => none, nowSeconds := 0 }
    (World.mk [] []) "s1"
    ("Nộp bài: 1-A,2-B,3-C,4-D,5-A,6-B,7-C,8-D,9-A,10-B".data) []
    (by decide) (by decide)).1

/-- C7: whenever the Agent reaches the search step — with no pending quiz, or
with a pending quiz that the view/create checks and the guard let through —
and retrieval returns nothing or a best (first) score below 0.8, the response
is the general chat completion over the system prompt, the last 10 history
messages and the current message — never the retrieved answer; the retrieved
answer is returned (directly) only for a best score at least 0.8 with a
stored explanation. -/
theorem C7_search_fallback (env : AgentEnv) (w : World) (sid : String)
    (q : Str) (history : List Msg)
    (h1 : shouldSubmitQuiz q = false)
    (h2 : getLatestPendingQuiz w sid = none ∨
      ∃ pending, getLatestPendingQuiz w sid = some pending ∧
        shouldViewQuiz q = false ∧
        (isCheating q
          { id := pending.id, content := pending.content,
            subject := pending.subject, topic := pending.topic }
          env.guardCache env.guardLLM).is_blocked = false)
    (h3 : shouldCreateQuiz q = false)
    (h4 : shouldDrawGraph q = false)
    (h5 : shouldUseTool q = true) :
    (env.search q = [] →
      agentQuery env w sid none q history =
        (AgentResp.chatCompletion (generalMessages q history), w)) ∧
    (∀ best rest, env.search q = best :: rest → best.score < 4 / 5 →
      agentQuery env w sid none q history =
        (AgentResp.chatCompletion (generalMessages q history), w)) ∧
    (∀ best rest, env.search q = best :: rest → ¬ best.score < 4 / 5 →
      best.explanation ≠ "" →
      agentQuery env w sid none q history =
        (AgentResp.retrievedAnswer best.question_id best.correct_answer
          best.correct_answer_text best.explanation, w)) := by
  have hroute : agentQuery env w sid none q history = afterPendingFlow env w q history := by
    unfold agentQuery
    rcases h2 with h2 | ⟨pending, hpend, hview, hguard⟩
    · simp [h1, h2]
    · simp [h1, hpend, hview, h3, hguard]
  refine ⟨?_, ?_, ?_⟩
  · intro hs
    rw [hroute]
    unfold afterPendingFlow
    simp [h3, h4, h5, hs]
  · intro best rest hs hlow
    rw [hroute]
    unfold afterPendingFlow
    simp [h3, h4, h5, hs, hlow]
  · intro best rest hs hge hexpl
    rw [hroute]
    unfold afterPendingFlow
    simp [h3, h4, h5, hs, hge, hexpl]

/-- C7 witness: a natural-science question with an empty retrieval, a
low-score retrieval, a high-score retrieval with an explanation, and — with a
pending quiz that the guard lets through — the spec's 0.55-score fallback. -/
theorem C7_search_fallback_witness :
    (agentQuery
        { search := fun _ => [], guardCache := [], guardLLM := Except.error (),
          createQuiz := fun _ w => (AgentResp.createFlow "quiz", w),
          graph := fun _ => AgentResp.graphFlow "graph",
          subNow := [], subId := "sub_1",
          createdAtSeconds := fun _ => none, nowSeconds := 0 }
        (World.mk [] []) "s1" none ("Quang hợp là gì".data) [] =
      (AgentResp.chatCompletion (generalMessages ("Quang hợp là gì".data) []),
        World.mk [] [])) ∧
    (agentQuery
        { search := fun _ => [⟨"q7", "A", "diệp lục", "", 11 / 20⟩],
          guardCache := [], guardLLM := Except.error (),
          createQuiz := fun _ w => (AgentResp.createFlow "quiz", w),
          graph := fun _ => AgentResp.graphFlow "graph",
          subNow := [], subId := "sub_1",
          createdAtSeconds := fun _ => none, nowSeconds := 0 }
        (World.mk [] []) "s1" none ("Quang hợp là gì".data) [] =
      (AgentResp.chatCompletion (generalMessages ("Quang hợp là gì".data) []),
        World.mk [] [])) ∧
    (agentQuery
        { search := fun _ => [⟨"q7", "A", "diệp lục", "vì diệp lục hấp thụ ánh sáng", 9 / 10⟩],
          guardCache := [], guardLLM := Except.error (),
          createQuiz := fun _ w => (AgentResp.createFlow "quiz", w),
          graph := fun _ => AgentResp.graphFlow "graph",
          subNow := [], subId := "sub_1",
          createdAtSeconds := fun _ => none, nowSeconds := 0 }
        (World.mk [] []) "s1" none ("Quang hợp là gì".data) [] =
      (AgentResp.retrievedAnswer "q7" "A" "diệp lục" "vì diệp lục hấp thụ ánh sáng",
        World.mk [] [])) ∧
    (agentQuery
        { search := fun _ => [⟨"q7", "A", "diệp lục", "giải thích", 11 / 20⟩],
          guardCache := [], guardLLM := Except.ok ("NO".data),
          createQuiz := fun _ w => (AgentResp.createFlow "quiz", w),
          graph := fun _ => AgentResp.graphFlow "graph",
          subNow := [], subId := "sub_1",
          createdAtSeconds := fun _ => none, nowSeconds := 0 }
        (World.mk
          [{ id := "quiz_p", student_id := "s1", date := "2026-01-02T09:00:00".data,
             daily_count := 1, content := "Nội dung đề".data, subject := none,
             topic := none, difficulty := none, num_questions := 10,
             time_limit := 15, answer_key := some ("1-A,2-B".data),
             status := "pending" }] [])
        "s1" none ("Quang hợp là gì".data) [] =
      (AgentResp.chatCompletion (generalMessages ("Quang hợp là gì".data) []),
        World.mk
          [{ id := "quiz_p", student_id := "s1", date := "2026-01-02T09:00:00".data,
             daily_count := 1, content := "Nội dung đề".data, subject := none,
             topic := none, difficulty := none, num_questions := 10,
             time_limit := 15, answer_key := some ("1-A,2-B".data),
             status := "pending" }] [])) :=
  ⟨(C7_search_fallback _ (World.mk [] []) "s1" ("Quang hợp là gì".data) []
      (by decide) (Or.inl (by decide)) (by decide) (by decide) (by decide)).1 rfl,
   (C7_search_fallback _ (World.mk [] []) "s1" ("Quang hợp là gì".data) []
      (by decide) (Or.inl (by decide)) (by decide) (by decide) (by decide)).2.1
      ⟨"q7", "A", "diệp lục", "", 11 / 20⟩ [] rfl (by norm_num),
   (C7_search_fallback _ (World.mk [] []) "s1" ("Quang hợp là gì".data) []
      (by decide) (Or.inl (by decide)) (by decide) (by decide) (by decide)).2.2
      ⟨"q7", "A", "diệp lục", "vì diệp lục hấp thụ ánh sáng", 9 / 10⟩ [] rfl
      (by norm_num) (by decide),
   (C7_search_fallback _
      (World.mk
        [{ id := "quiz_p", student_id := "s1", date := "2026-01-02T09:00:00".data,
           daily_count := 1, content := "Nội dung đề".data, subject := none,
           topic := none, difficulty := none, num_questions := 10,
           time_limit := 15, answer_key := some ("1-A,2-B".data),
           status := "pending" }] [])
      "s1" ("Quang hợp là gì".data) []
      (by decide)
      (Or.inr ⟨{ id := "quiz_p", student_id := "s1",
                 date := "2026-01-02T09:00:00".data,
                 daily_count := 1, content := "Nội dung đề".data, subject := none,
                 topic := none, difficulty := none, num_questions := 10,
                 time_limit := 15, answer_key := some ("1-A,2-B".data),
                 status := "pending" }, by decide, by decide, by decide⟩)
      (by decide) (by decide) (by decide)).2.1
      ⟨"q7", "A", "diệp lục", "giải thích", 11 / 20⟩ [] rfl (by norm_num)⟩

end KhktRag
